import Mathlib

/-!
Verification of the KYT Auditor risk-analysis pipeline.

Shallow embedding of the Python source (orchestrator/kyt_orchestrator.py,
agents/forensic_agent.py, agents/legal_agent.py, services/content_safety.py,
services/search_service.py, kyt/agents/report_agent.py).  Transaction
amounts are modelled as natural numbers; external collaborators (the
sanctions provider, the LLM agents) are modelled as explicit parameters
returning either a value or a raised exception (Except).
-/

/-- Checks whether the first list is an initial segment of the second
(character-level helper for Python substring containment). -/
def startsWithChars : List Char → List Char → Bool
  | [], _ => true
  | _ :: _, [] => false
  | c :: cs, d :: ds => c == d && startsWithChars cs ds

/-- Checks whether needle occurs contiguously inside hay
(character-level helper for Python substring containment). -/
def hasSubChars (needle : List Char) : List Char → Bool
  | [] => needle.isEmpty
  | d :: ds => startsWithChars needle (d :: ds) || hasSubChars needle ds

/-- Python substring test: strContains hay needle corresponds to
Python needle in hay. -/
def strContains (hay needle : String) : Bool :=
  hasSubChars needle.toList hay.toList

/-- ASCII lower-casing of one character.  The pipeline only lower-cases
country and transaction-type strings, which are ASCII. -/
def lowerChar (c : Char) : Char :=
  if 65 ≤ c.toNat ∧ c.toNat ≤ 90 then Char.ofNat (c.toNat + 32) else c

/-- Python str.lower for the ASCII strings the pipeline handles. -/
def strLower (s : String) : String := String.mk (s.toList.map lowerChar)

/-- Python ", ".join over a list of strings. -/
def joinComma : List String → String
  | [] => ""
  | [x] => x
  | x :: xs => x ++ ", " ++ joinComma xs

/-- A transaction record, as the dictionaries consumed by the pipeline.
Fields absent from a dictionary are modelled by the stated defaults
(the defaults the Python .get calls supply). -/
structure Transaction where
  id : String := ""
  account_id : Option String := none
  amount : Nat := 0
  country : String := ""
  type : String := ""
  suspicious : Bool := false
  sender_name : Option String := none
  receiver_name : Option String := none
  counterparty : Option String := none
  beneficiary : Option String := none
  deriving DecidableEq

/-! ## Orchestrator: high-risk extraction (kyt_orchestrator._extract_high_risk) -/

/-- High-risk jurisdiction substrings used by _extract_high_risk. -/
def high_risk_countries : List String := ["iran", "north korea", "syria", "russia"]

/-- Jurisdiction check of _extract_high_risk:
any(c in country for c in high_risk_countries) on the lower-cased country. -/
def jurisdictionHit (t : Transaction) : Bool :=
  high_risk_countries.any (fun c => strContains (strLower t.country) c)

/-- Risk score accumulated by _extract_high_risk for one transaction:
+3 for amount at or above 10000, else +5 for amount in [9000, 10000);
+2 for a round multiple of 1000 above 1000; +5 for a jurisdiction hit. -/
def riskScoreOf (t : Transaction) : Nat :=
  (if 10000 ≤ t.amount then 3
   else if 9000 ≤ t.amount ∧ t.amount < 10000 then 5 else 0)
  + (if 1000 < t.amount ∧ t.amount % 1000 = 0 then 2 else 0)
  + (if jurisdictionHit t then 5 else 0)

/-- Reasons recorded by _extract_high_risk, in source order. -/
def riskReasonsOf (t : Transaction) : List String :=
  (if 10000 ≤ t.amount then ["Amount >= $10,000"]
   else if 9000 ≤ t.amount ∧ t.amount < 10000 then ["Amount just below $10,000 threshold"] else [])
  ++ (if 1000 < t.amount ∧ t.amount % 1000 = 0 then ["Round number amount"] else [])
  ++ (if jurisdictionHit t then ["High-risk jurisdiction: " ++ (strLower t.country)] else [])

/-- A high-risk entry: the transaction enriched with risk_score
(clamped to 10) and risk_reasons, as appended by _extract_high_risk. -/
structure HighRiskTxn where
  txn : Transaction
  risk_score : Nat
  risk_reasons : List String
  deriving DecidableEq

/-- The per-transaction decision of _extract_high_risk: an enriched entry
when the accumulated score reaches 5, nothing otherwise. -/
def highRiskEntry (t : Transaction) : Option HighRiskTxn :=
  if 5 ≤ riskScoreOf t then some ⟨t, min (riskScoreOf t) 10, riskReasonsOf t⟩ else none

/-- kyt_orchestrator._extract_high_risk over a batch. -/
def extract_high_risk (txns : List Transaction) : List HighRiskTxn :=
  txns.filterMap highRiskEntry

/-! ## Orchestrator: structuring detection (kyt_orchestrator._detect_patterns) -/

/-- Grouping key of _detect_patterns: txn.get("account_id", "unknown"). -/
def accountKey (t : Transaction) : String := t.account_id.getD "unknown"

/-- Distinct values in first-occurrence order, as the keys of the Python
dict built by the grouping loop iterate. -/
def firstOccurrences : List String → List String
  | [] => []
  | a :: l => a :: (firstOccurrences l).filter (fun b => b != a)

/-- The group of transactions a given account key collects. -/
def accountGroup (txns : List Transaction) (a : String) : List Transaction :=
  txns.filter (fun t => accountKey t == a)

/-- Sum of the amounts of a group. -/
def totalAmount (g : List Transaction) : Nat := (g.map (fun t => t.amount)).sum

/-- A structuring pattern as appended by _detect_patterns. -/
structure StructPattern where
  type : String
  account : String
  transaction_count : Nat
  total_amount : Nat
  severity : String
  deriving DecidableEq

/-- The per-account decision of _detect_patterns: flag the group when it
has at least 3 members, total above 10000, and every amount below 10000. -/
def structuringEntry (txns : List Transaction) (a : String) : Option StructPattern :=
  if 3 ≤ (accountGroup txns a).length then
    if 10000 < totalAmount (accountGroup txns a) ∧ ∀ t ∈ accountGroup txns a, t.amount < 10000 then
      some ⟨"POTENTIAL_STRUCTURING", a, (accountGroup txns a).length,
            totalAmount (accountGroup txns a), "HIGH"⟩
    else none
  else none

/-- kyt_orchestrator._detect_patterns: group by account key in first
occurrence order and flag qualifying groups. -/
def detect_patterns (txns : List Transaction) : List StructPattern :=
  (firstOccurrences (txns.map accountKey)).filterMap (structuringEntry txns)

/-! ## Orchestrator: entity extraction (kyt_orchestrator._extract_entities) -/

/-- The four optional entity fields read by _extract_entities, in source order. -/
def entityFields (t : Transaction) : List (Option String) :=
  [t.sender_name, t.receiver_name, t.counterparty, t.beneficiary]

/-- kyt_orchestrator._extract_entities: the union of present entity names.
The Python set is modelled with first-insertion iteration order. -/
def extract_entities (txns : List Transaction) : List String :=
  firstOccurrences (txns.foldl (fun acc t => acc ++ (entityFields t).filterMap id) [])

/-! ## Sanctions search (search_service.SanctionsSearcher.search) and
compliance evaluation (kyt_orchestrator._run_compliance_evaluation) -/

/-- A sanctions match as assembled by SanctionsSearcher.search.  Only the
fields a verified property inspects are carried; the floating-point
search score and derived match_type are omitted. -/
structure SMatch where
  name : Option String := none
  sanctions_list : Option String := none
  deriving DecidableEq

/-- SanctionsSearcher.search given the outcome of the provider call: the
assembled matches on success; on a raised provider error the exception is
caught, logged to stdout, and an empty list is returned. -/
def sanctionsSearch (outcome : Except String (List SMatch)) : List SMatch :=
  match outcome with
  | Except.ok ms => ms
  | Except.error _ => []

/-- The filter applied in _run_compliance_evaluation:
"error" not in m and m.get("name").  Records built by search carry no
"error" key, so only name truthiness remains. -/
def validMatch (m : SMatch) : Bool := m.name.getD "" != ""

/-- The sanctions loop of _run_compliance_evaluation: one provider call
per entity, extending the accumulator with the valid matches whenever the
call produced any match. -/
def collectSanctionsMatches (provider : String → Except String (List SMatch))
    (entities : List String) : List SMatch :=
  entities.foldl (fun acc entity =>
    let found := sanctionsSearch (provider entity)
    if found.isEmpty then acc else acc ++ found.filter validMatch) []

/-- Result record of _run_compliance_evaluation.  The error field is
present exactly when the except branch is taken. -/
structure ComplianceResult where
  raw_output : String
  sanctions_matches : List SMatch
  compliance_status : String
  error : Option String
  deriving DecidableEq

/-- kyt_orchestrator._run_compliance_evaluation: the legal agent call may
raise (agentResult); an exception anywhere in the try block yields the
error record.  The per-entity provider calls never raise out of search,
so on a successful agent call the whole loop runs. -/
def run_compliance_evaluation (agentResult : Except String String)
    (provider : String → Except String (List SMatch))
    (entities : List String) : ComplianceResult :=
  match agentResult with
  | Except.error e => ⟨"", [], "ERROR", some e⟩
  | Except.ok out =>
      let ms := collectSanctionsMatches provider entities
      ⟨out, ms, if ms.isEmpty then "PASSED" else "REVIEW_NEEDED", none⟩

/-! ## Orchestrator: decisions for the bias audit
(kyt_orchestrator._prepare_decisions_for_bias_check) -/

/-- A decision record handed to the bias auditor.  The floating-point
match_score pass-through is omitted; unused fields default as in the
Python dictionaries. -/
structure Decision where
  decision_type : String
  transaction_id : Option String := none
  entity : Option String := none
  risk_score : Nat := 0
  reasoning : String := ""
  sanctions_match : Bool := false
  deriving DecidableEq

/-- kyt_orchestrator._prepare_decisions_for_bias_check: one decision per
high-risk transaction, one per sanctions match, and a synthetic NO_ALERTS
decision when there is nothing to audit. -/
def prepare_decisions_for_bias_check (high_risk : List HighRiskTxn)
    (sanctionMatches : List SMatch) : List Decision :=
  let decisions :=
    high_risk.map (fun h =>
      { decision_type := "RISK_ASSESSMENT",
        transaction_id := some h.txn.id,
        risk_score := h.risk_score,
        reasoning := joinComma h.risk_reasons,
        sanctions_match := false })
    ++ sanctionMatches.map (fun m =>
      { decision_type := "SANCTIONS_MATCH",
        entity := m.name,
        reasoning := "Matched against " ++ m.sanctions_list.getD "unknown list",
        sanctions_match := true })
  if decisions.isEmpty then
    [{ decision_type := "NO_ALERTS", reasoning := "No suspicious activity detected" }]
  else decisions

/-! ## Orchestrator: executive summary (kyt_orchestrator._generate_summary) -/

/-- The executive summary record. -/
structure Summary where
  overall_risk_level : String
  high_risk_transactions : Nat
  sanctions_matches : Nat
  suspicious_patterns : Nat
  compliance_status : String
  responsible_ai_status : ℚ
  requires_manual_review : Bool
  deriving DecidableEq

/-- kyt_orchestrator._generate_summary from the stage results: HIGH when
any sanctions match or pattern exists, else MEDIUM when any high-risk
transaction exists, else LOW; manual review for HIGH or MEDIUM. -/
def generate_summary (high_risk : List HighRiskTxn) (patterns : List StructPattern)
    (sanctionMatches : List SMatch) (compliance_status : String) (pass_rate : ℚ) : Summary :=
  let high_risk_count := high_risk.length
  let sanctions_count := sanctionMatches.length
  let patterns_count := patterns.length
  let overall_risk :=
    if 0 < sanctions_count ∨ 0 < patterns_count then "HIGH"
    else if 0 < high_risk_count then "MEDIUM" else "LOW"
  { overall_risk_level := overall_risk,
    high_risk_transactions := high_risk_count,
    sanctions_matches := sanctions_count,
    suspicious_patterns := patterns_count,
    compliance_status := compliance_status,
    responsible_ai_status := pass_rate,
    requires_manual_review := overall_risk == "HIGH" || overall_risk == "MEDIUM" }

/-! ## Forensic agent: per-transaction scoring
(forensic_agent._analyze_transaction_pattern) -/

/-- The per-transaction analysis returned by _analyze_transaction_pattern. -/
structure PatternAnalysis where
  transaction_id : String
  findings : List String
  risk_score : Nat
  requires_review : Bool
  deriving DecidableEq

/-- forensic_agent._analyze_transaction_pattern: +2 for a round multiple
of 1000 above 1000, +4 for an amount in [9000, 10000), +3 for an amount
above 50000; score clamped to 10; review required when the unclamped
score reaches 5. -/
def analyze_transaction_pattern (t : Transaction) : PatternAnalysis :=
  let a := t.amount
  let findings :=
    (if 1000 < a ∧ a % 1000 = 0 then ["Round number transaction: $" ++ toString a] else [])
    ++ (if 9000 ≤ a ∧ a < 10000 then
          ["Amount just below $10,000 reporting threshold: $" ++ toString a] else [])
    ++ (if 50000 < a then ["High-value transaction: $" ++ toString a] else [])
  let risk_score :=
    (if 1000 < a ∧ a % 1000 = 0 then 2 else 0)
    + (if 9000 ≤ a ∧ a < 10000 then 4 else 0)
    + (if 50000 < a then 3 else 0)
  ⟨t.id, findings, min risk_score 10, decide (5 ≤ risk_score)⟩

/-! ## Legal agent: reporting requirements
(legal_agent._determine_reporting_requirements) -/

/-- A regulatory reporting requirement entry. -/
structure Requirement where
  report_type : String
  regulation : String
  deadline : String
  reason : String
  deriving DecidableEq

/-- The CTR entry appended by _determine_reporting_requirements. -/
def ctrRequirement : Requirement :=
  ⟨"CTR", "31 CFR 1010.311", "15 days", "Cash transaction exceeds $10,000 threshold"⟩

/-- The SAR entry appended by _determine_reporting_requirements. -/
def sarRequirement : Requirement :=
  ⟨"SAR", "31 CFR 1020.320", "30 days", "Transaction flagged for suspicious activity review"⟩

/-- legal_agent._determine_reporting_requirements: CTR for a cash
transaction of at least 10000, SAR for a suspicious flag or an amount of
at least 5000. -/
def determine_reporting_requirements (t : Transaction) : List Requirement :=
  (if 10000 ≤ t.amount ∧ strContains (strLower t.type) "cash" then [ctrRequirement] else [])
  ++ (if t.suspicious = true ∨ 5000 ≤ t.amount then [sarRequirement] else [])

/-! ## Content safety: overall bias assessment
(content_safety._get_overall_bias_assessment) -/

/-- A bias indicator as produced by _check_kyt_bias_indicators. -/
structure BiasIndicator where
  type : String
  severity : String
  recommendation : String
  deriving DecidableEq

/-- The overall bias assessment record. -/
structure BiasAssessment where
  status : String
  message : String
  high_severity_count : Nat
  medium_severity_count : Nat
  recommendations : List String
  deriving DecidableEq

/-- content_safety._get_overall_bias_assessment: REVIEW_REQUIRED on any
high indicator, else CAUTION on more than one medium indicator, else
CONTENT_SAFETY_ISSUE when the safety result is not safe (missing is_safe
defaults to safe), else PASSED. -/
def get_overall_bias_assessment (safety_is_safe : Option Bool)
    (bias_indicators : List BiasIndicator) : BiasAssessment :=
  let high_severity_count := bias_indicators.countP (fun i => i.severity == "high")
  let medium_severity_count := bias_indicators.countP (fun i => i.severity == "medium")
  let sm : String × String :=
    if 0 < high_severity_count then
      ("REVIEW_REQUIRED", "High severity bias indicators detected - manual review required")
    else if 1 < medium_severity_count then
      ("CAUTION", "Multiple medium severity bias indicators - consider review")
    else if safety_is_safe.getD true = false then
      ("CONTENT_SAFETY_ISSUE", "Content safety concerns detected")
    else ("PASSED", "No significant bias indicators detected")
  ⟨sm.1, sm.2, high_severity_count, medium_severity_count,
    (bias_indicators.map (fun i => i.recommendation)).filter (fun r => r != "")⟩

/-! ## Report agent: tamper-evident hash (report_agent._generate_report_hash)

The Python code calls hashlib.sha256(content.encode()).hexdigest().  The
standard-library hash is embedded here as an executable SHA-256 over the
UTF-8 bytes of the content, with 32-bit words carried as naturals reduced
modulo 2 ^ 32. -/

/-- UTF-8 encoding of one Unicode code point, as bytes. -/
def charUtf8 (n : Nat) : List Nat :=
  if n < 0x80 then [n]
  else if n < 0x800 then [0xC0 + n / 0x40, 0x80 + n % 0x40]
  else if n < 0x10000 then
    [0xE0 + n / 0x1000, 0x80 + (n / 0x40) % 0x40, 0x80 + n % 0x40]
  else
    [0xF0 + n / 0x40000, 0x80 + (n / 0x1000) % 0x40, 0x80 + (n / 0x40) % 0x40,
     0x80 + n % 0x40]

/-- UTF-8 bytes of a string (Python str.encode with default encoding). -/
def utf8Bytes (s : String) : List Nat :=
  s.toList.foldr (fun c acc => charUtf8 c.toNat ++ acc) []

/-- Addition of 32-bit words. -/
def add32 (a b : Nat) : Nat := (a + b) % 4294967296

/-- Right rotation of a 32-bit word. -/
def rotr32 (n x : Nat) : Nat := ((x >>> n) ||| (x <<< (32 - n))) % 4294967296

/-- Trial-division primality test for the small primes the SHA-256
constants are derived from. -/
def isPrimeSimple (n : Nat) : Bool :=
  2 ≤ n && (List.range n).all (fun d => d < 2 || n % d != 0)

/-- Primes below a bound, ascending. -/
def primesBelow (n : Nat) : List Nat := (List.range n).filter isPrimeSimple

/-- Bit-by-bit integer root: the largest r below 2 ^ bits with
r ^ pow at most n. -/
def rootBits (bits pow n : Nat) : Nat :=
  (List.range bits).foldl (fun r i =>
    let c := r + 2 ^ (bits - 1 - i)
    if c ^ pow ≤ n then c else r) 0

/-- SHA-256 round constants, per FIPS 180-4: the first 32 bits of the
fractional parts of the cube roots of the first 64 primes (311 is the
64th prime). -/
def sha256K : List Nat :=
  (primesBelow 312).map (fun p => rootBits 36 3 (p * 2 ^ 96) % 2 ^ 32)

/-- SHA-256 initial hash state, per FIPS 180-4: the first 32 bits of the
fractional parts of the square roots of the first 8 primes. -/
def sha256H0 : List Nat :=
  (primesBelow 20).map (fun p => rootBits 36 2 (p * 2 ^ 64) % 2 ^ 32)

/-- Big-endian 8-byte encoding of a length in bits. -/
def be64 (n : Nat) : List Nat :=
  [(n >>> 56) % 256, (n >>> 48) % 256, (n >>> 40) % 256, (n >>> 32) % 256,
   (n >>> 24) % 256, (n >>> 16) % 256, (n >>> 8) % 256, n % 256]

/-- SHA-256 message padding: a 0x80 byte, zeros to 56 mod 64, then the
bit length. -/
def padMessage (msg : List Nat) : List Nat :=
  let z := (64 - (msg.length + 9) % 64) % 64
  msg ++ [0x80] ++ List.replicate z 0 ++ be64 (8 * msg.length)

/-- The i-th 64-byte block of the padded message. -/
def sha256Block (p : List Nat) (i : Nat) : List Nat := (p.drop (64 * i)).take 64

/-- The 16 big-endian 32-bit words of one block. -/
def wordsOfBlock (b : List Nat) : List Nat :=
  (List.range 16).map (fun i =>
    b.getD (4 * i) 0 * 0x1000000 + b.getD (4 * i + 1) 0 * 0x10000 +
    b.getD (4 * i + 2) 0 * 0x100 + b.getD (4 * i + 3) 0)

/-- SHA-256 lower-case sigma 0. -/
def sSigma0 (x : Nat) : Nat := rotr32 7 x ^^^ rotr32 18 x ^^^ (x >>> 3)

/-- SHA-256 lower-case sigma 1. -/
def sSigma1 (x : Nat) : Nat := rotr32 17 x ^^^ rotr32 19 x ^^^ (x >>> 10)

/-- SHA-256 upper-case sigma 0. -/
def bSigma0 (x : Nat) : Nat := rotr32 2 x ^^^ rotr32 13 x ^^^ rotr32 22 x

/-- SHA-256 upper-case sigma 1. -/
def bSigma1 (x : Nat) : Nat := rotr32 6 x ^^^ rotr32 11 x ^^^ rotr32 25 x

/-- SHA-256 choice function. -/
def sha256Ch (x y z : Nat) : Nat := (x &&& y) ^^^ ((x ^^^ 0xFFFFFFFF) &&& z)

/-- SHA-256 majority function. -/
def sha256Maj (x y z : Nat) : Nat := (x &&& y) ^^^ (x &&& z) ^^^ (y &&& z)

/-- The 64-entry message schedule extended from the 16 block words. -/
def sha256Schedule (ws : List Nat) : List Nat :=
  (List.range 48).foldl (fun w _ =>
    let i := w.length
    w ++ [add32 (add32 (sSigma1 (w.getD (i - 2) 0)) (w.getD (i - 7) 0))
            (add32 (sSigma0 (w.getD (i - 15) 0)) (w.getD (i - 16) 0))]) ws

/-- One SHA-256 compression of a block into the running state. -/
def sha256Compress (h : List Nat) (b : List Nat) : List Nat :=
  let w := sha256Schedule (wordsOfBlock b)
  let st := (List.range 64).foldl (fun st i =>
    let t1 := add32 (st.getD 7 0)
      (add32 (bSigma1 (st.getD 4 0))
        (add32 (sha256Ch (st.getD 4 0) (st.getD 5 0) (st.getD 6 0))
          (add32 (sha256K.getD i 0) (w.getD i 0))))
    let t2 := add32 (bSigma0 (st.getD 0 0))
      (sha256Maj (st.getD 0 0) (st.getD 1 0) (st.getD 2 0))
    [add32 t1 t2, st.getD 0 0, st.getD 1 0, st.getD 2 0,
     add32 (st.getD 3 0) t1, st.getD 4 0, st.getD 5 0, st.getD 6 0]) h
  List.zipWith add32 h st

/-- The eight 32-bit state words of the SHA-256 digest of a byte string. -/
def sha256Words (msg : List Nat) : List Nat :=
  let p := padMessage msg
  (List.range (p.length / 64)).foldl (fun h i => sha256Compress h (sha256Block p i)) sha256H0

/-- Lower-case hexadecimal digit. -/
def hexDigit (n : Nat) : Char :=
  if n < 10 then Char.ofNat (48 + n) else Char.ofNat (87 + n)

/-- Eight-digit lower-case hexadecimal rendering of a 32-bit word. -/
def wordHex (w : Nat) : String :=
  String.mk ((List.range 8).map (fun i => hexDigit ((w >>> (4 * (7 - i))) % 16)))

/-- Lower-case hexadecimal SHA-256 digest of a byte string. -/
def sha256Hex (msg : List Nat) : String :=
  String.join ((sha256Words msg).map wordHex)

/-- hashlib.sha256(s.encode()).hexdigest() of the Python standard library. -/
def sha256Hexdigest (s : String) : String := sha256Hex (utf8Bytes s)

/-- The record returned by report_agent._generate_report_hash; the
generated_at timestamp is the wall-clock time of the call, passed
explicitly. -/
structure ReportHash where
  hash_algorithm : String
  hash_value : String
  generated_at : String
  purpose : String
  deriving DecidableEq

/-- report_agent._generate_report_hash: SHA-256 hex digest of the content
bytes together with the current timestamp. -/
def generate_report_hash (content : String) (now : String) : ReportHash :=
  ⟨"SHA-256", sha256Hexdigest content, now, "Tamper-evident verification"⟩

/-! ## Orchestrator run state machine (kyt_orchestrator.analyze_transactions)

The run record tracks the fields of current_analysis that the verified
properties inspect: status, completion timestamp and captured error.  The
stage payloads and the progress callback never influence these fields.  A
call either completes all four stages (the inner stage wrappers catch
their own exceptions) or an unexpected exception escapes a stage body;
the latter is modelled by the unexpected field of the call descriptor. -/

/-- The run record (current_analysis) as relevant to status and history. -/
structure AnalysisRun where
  id : String
  started_at : String
  status : String
  transactions_count : Nat
  completed_at : Option String
  error : Option String
  deriving DecidableEq

/-- One invocation of analyze_transactions: its identifiers, timestamps,
batch size, and the unexpected exception escaping a stage, if any. -/
structure RunCall where
  id : String
  started_at : String
  finished_at : String
  txCount : Nat
  unexpected : Option String
  deriving DecidableEq

/-- What one invocation of analyze_transactions produces: the final run
record, the updated history, and whether the exception was re-raised. -/
structure RunOutcome where
  run : AnalysisRun
  history : List AnalysisRun
  raised : Bool
  deriving DecidableEq

/-- kyt_orchestrator.analyze_transactions, state transition view: on
success the run is marked COMPLETED, stamped, and a copy is appended to
the history; on an unexpected exception the run is marked FAILED with the
captured error and the exception is re-raised, leaving the history
unchanged. -/
def analyze_transactions_run (hist : List AnalysisRun) (c : RunCall) : RunOutcome :=
  match c.unexpected with
  | none =>
      let run : AnalysisRun :=
        ⟨c.id, c.started_at, "COMPLETED", c.txCount, some c.finished_at, none⟩
      ⟨run, hist ++ [run], false⟩
  | some e =>
      let run : AnalysisRun :=
        ⟨c.id, c.started_at, "FAILED", c.txCount, none, some e⟩
      ⟨run, hist, true⟩

/-- The completed run record a successful call appends. -/
def completedRun (c : RunCall) : AnalysisRun :=
  ⟨c.id, c.started_at, "COMPLETED", c.txCount, some c.finished_at, none⟩

/-- The history entries contributed by one call: one completed entry on
success, nothing on failure. -/
def newEntries (c : RunCall) : List AnalysisRun :=
  match c.unexpected with
  | none => [completedRun c]
  | some _ => []

/-- The history accumulated by a sequence of analyze_transactions calls
on a fresh orchestrator. -/
def run_history (calls : List RunCall) : List AnalysisRun :=
  calls.foldl (fun h c => (analyze_transactions_run h c).history) []

/-- kyt_orchestrator.get_analysis_history: returns the history as is. -/
def get_analysis_history (h : List AnalysisRun) : List AnalysisRun := h

/-! ## Concrete inputs used by the verified properties -/

/-- The whole pipeline view of one batch as far as the executive summary
is concerned: forensic extraction and pattern detection feed the summary
together with the compliance stage results. -/
def pipelineSummary (txns : List Transaction) (agentOut : String)
    (provider : String → Except String (List SMatch)) (pass_rate : ℚ) : Summary :=
  generate_summary (extract_high_risk txns) (detect_patterns txns)
    (run_compliance_evaluation (Except.ok agentOut) provider (extract_entities txns)).sanctions_matches
    (run_compliance_evaluation (Except.ok agentOut) provider (extract_entities txns)).compliance_status
    pass_rate

/-- The two-transaction batch of the end-to-end property. -/
def c1batch : List Transaction :=
  [{ id := "T1", account_id := some "A1", amount := 9500, country := "US" },
   { id := "T2", account_id := some "A1", amount := 50000, country := "Iran" }]

/-- A provider that always answers with no matches. -/
def emptyProvider : String → Except String (List SMatch) := fun _ => Except.ok []

/-- A sanctions match for the partial-failure scenarios. -/
def mACME : SMatch := ⟨some "ACME Shell Corporation", some "OFAC SDN"⟩

/-- A second sanctions match for the partial-failure scenarios. -/
def mOffshore : SMatch := ⟨some "Offshore Trust Ltd", some "OFAC SDN"⟩

/-- A provider that raises for entity E2 and succeeds for the others. -/
def partialProvider : String → Except String (List SMatch) := fun e =>
  if e == "E2" then Except.error "sanctions backend timeout"
  else if e == "E1" then Except.ok [mACME] else Except.ok [mOffshore]

/-- A run call during which an unexpected exception escapes a stage. -/
def failCall : RunCall := ⟨"KYT-20240101-000000", "t0", "t1", 1, some "boom"⟩

/-- The near-threshold transaction of the forensic scoring property. -/
def txn9500 : Transaction := { id := "TXN001", amount := 9500 }

/-- The structuring example batch with amounts 9000, 8500, 9500 on one account. -/
def c5batchA : List Transaction :=
  [{ id := "S1", account_id := some "A", amount := 9000 },
   { id := "S2", account_id := some "A", amount := 8500 },
   { id := "S3", account_id := some "A", amount := 9500 }]

/-- The non-structuring example batch with amounts 9000 and 12000. -/
def c5batchB : List Transaction :=
  [{ id := "S1", account_id := some "A", amount := 9000 },
   { id := "S2", account_id := some "A", amount := 12000 }]

/-- A large, non-round, low-risk-jurisdiction transaction. -/
def txnLargeClean : Transaction := { id := "TBIG", amount := 123456789, country := "US" }

/-! ## Helper lemmas -/

/-- Two booleans agreeing as propositions are equal. -/
theorem bool_eq_of_iff {a b : Bool} (h : a = true ↔ b = true) : a = b := by
  cases a <;> cases b <;> simp_all

/-- The body of the sanctions loop always contributes exactly the valid
matches of the entity: when the call produced nothing the filter is empty. -/
theorem collectStep (acc found : List SMatch) :
    (if found.isEmpty then acc else acc ++ found.filter validMatch)
      = acc ++ found.filter validMatch := by
  cases found <;> simp

/-- Membership in the first-occurrence deduplication is membership in the list. -/
theorem mem_firstOccurrences {a : String} {l : List String} :
    a ∈ firstOccurrences l ↔ a ∈ l := by
  induction l with
  | nil => simp [firstOccurrences]
  | cons b l ih =>
    simp only [firstOccurrences, List.mem_cons, List.mem_filter, ih, bne_iff_ne]
    constructor
    · rintro (h | ⟨h, _⟩)
      · exact Or.inl h
      · exact Or.inr h
    · rintro (h | h)
      · exact Or.inl h
      · by_cases hb : a = b
        · exact Or.inl hb
        · exact Or.inr ⟨h, hb⟩

/-- Characterization of the per-account structuring decision. -/
theorem structuringEntry_eq_some {txns : List Transaction} {a : String} {p : StructPattern} :
    structuringEntry txns a = some p ↔
      (3 ≤ (accountGroup txns a).length ∧ 10000 < totalAmount (accountGroup txns a) ∧
       (∀ t ∈ accountGroup txns a, t.amount < 10000) ∧
       p = ⟨"POTENTIAL_STRUCTURING", a, (accountGroup txns a).length,
            totalAmount (accountGroup txns a), "HIGH"⟩) := by
  unfold structuringEntry
  by_cases h1 : 3 ≤ (accountGroup txns a).length
  · by_cases h2 : 10000 < totalAmount (accountGroup txns a) ∧
        ∀ t ∈ accountGroup txns a, t.amount < 10000
    · rw [if_pos h1, if_pos h2]
      constructor
      · intro hp
        exact ⟨h1, h2.1, h2.2, (Option.some_inj.mp hp).symm⟩
      · intro hp
        exact congrArg some hp.2.2.2.symm
    · rw [if_pos h1, if_neg h2]
      constructor
      · intro hp; exact Option.noConfusion hp
      · intro hp; exact absurd ⟨hp.2.1, hp.2.2.1⟩ h2
  · rw [if_neg h1]
    constructor
    · intro hp; exact Option.noConfusion hp
    · intro hp; exact absurd hp.1 h1

/-- A pattern is listed for an account exactly when the account group
satisfies the structuring conditions. -/
theorem pattern_for_account_iff {txns : List Transaction} {a : String} :
    (∃ p ∈ detect_patterns txns, p.account = a) ↔
      (3 ≤ (accountGroup txns a).length ∧ 10000 < totalAmount (accountGroup txns a) ∧
       ∀ t ∈ accountGroup txns a, t.amount < 10000) := by
  constructor
  · rintro ⟨p, hp, hpa⟩
    rw [detect_patterns, List.mem_filterMap] at hp
    obtain ⟨b, _, hsome⟩ := hp
    rw [structuringEntry_eq_some] at hsome
    obtain ⟨h1, h2, h3, hpe⟩ := hsome
    have hba : b = a := by rw [hpe] at hpa; exact hpa
    rw [hba] at h1 h2 h3
    exact ⟨h1, h2, h3⟩
  · rintro ⟨h1, h2, h3⟩
    refine ⟨⟨"POTENTIAL_STRUCTURING", a, (accountGroup txns a).length,
             totalAmount (accountGroup txns a), "HIGH"⟩, ?_, rfl⟩
    rw [detect_patterns, List.mem_filterMap]
    refine ⟨a, ?_, ?_⟩
    · rw [mem_firstOccurrences]
      have hne : accountGroup txns a ≠ [] := by
        intro hnil
        rw [hnil] at h1
        simp at h1
      obtain ⟨t, ht⟩ := List.exists_mem_of_ne_nil _ hne
      rw [accountGroup, List.mem_filter] at ht
      rw [List.mem_map]
      exact ⟨t, ht.1, by simpa using ht.2⟩
    · rw [structuringEntry_eq_some]
      exact ⟨h1, h2, h3, rfl⟩

/-! ## Claim theorems -/

/-- C1 counterexample: on the batch [T1: 9500 USD from US, T2: 50000 USD
from Iran] the executive summary computes overallRiskLevel = MEDIUM, not
HIGH as the claim states — the HIGH branch of _generate_summary requires
a sanctions match or a detected pattern, and this batch has neither. -/
theorem c1_overall_risk_is_not_high :
    (pipelineSummary c1batch "" emptyProvider 0).overall_risk_level = "MEDIUM" ∧
    (pipelineSummary c1batch "" emptyProvider 0).overall_risk_level ≠ "HIGH" := by
  constructor
  · rfl
  · decide

/-- C1 amended: for the two-transaction batch, high-risk extraction and
summary generation yield highRiskCount = 2 and requiresManualReview =
true, but overallRiskLevel = MEDIUM (for any provider, agent output and
bias pass rate: the batch has no entities, hence no sanctions matches,
and no structuring pattern). -/
theorem c1_pipeline_summary_of_batch (agentOut : String)
    (provider : String → Except String (List SMatch)) (pass_rate : ℚ) :
    (pipelineSummary c1batch agentOut provider pass_rate).high_risk_transactions = 2 ∧
    (pipelineSummary c1batch agentOut provider pass_rate).overall_risk_level = "MEDIUM" ∧
    (pipelineSummary c1batch agentOut provider pass_rate).requires_manual_review = true :=
  ⟨rfl, rfl, rfl⟩

/-- C2 counterexample: with the provider failing for E2 out of the three
entities E1, E2, E3, the compliance stage result does NOT record any
error — the exception is caught inside SanctionsSearcher.search and only
logged — while the matches of the two succeeding entities are returned.
This refutes the claim that the stage result records the error. -/
theorem c2_stage_result_records_no_error :
    (run_compliance_evaluation (Except.ok "ok") partialProvider ["E1", "E2", "E3"]).sanctions_matches
      = [mACME, mOffshore] ∧
    (run_compliance_evaluation (Except.ok "ok") partialProvider ["E1", "E2", "E3"]).error = none ∧
    (run_compliance_evaluation (Except.ok "ok") partialProvider ["E1", "E2", "E3"]).compliance_status
      = "REVIEW_NEEDED" := by
  decide

/-- C2 amended: a provider call failing for one of three entities does
not abort screening of the remaining entities; the stage result returns
the valid matches gathered from the entities that succeeded, its
complianceStatus reflects only the data obtained, and no error is
recorded in the stage result (the failure is only logged). -/
theorem c2_partial_failure_tolerant (out e1 e2 e3 err : String)
    (m1 m3 : List SMatch) (p : String → Except String (List SMatch))
    (h1 : p e1 = Except.ok m1) (h2 : p e2 = Except.error err)
    (h3 : p e3 = Except.ok m3) :
    (run_compliance_evaluation (Except.ok out) p [e1, e2, e3]).sanctions_matches
      = m1.filter validMatch ++ m3.filter validMatch ∧
    (run_compliance_evaluation (Except.ok out) p [e1, e2, e3]).error = none ∧
    (run_compliance_evaluation (Except.ok out) p [e1, e2, e3]).compliance_status
      = (if (m1.filter validMatch ++ m3.filter validMatch).isEmpty
         then "PASSED" else "REVIEW_NEEDED") := by
  have hc : collectSanctionsMatches p [e1, e2, e3]
      = m1.filter validMatch ++ m3.filter validMatch := by
    simp only [collectSanctionsMatches, List.foldl, h1, h2, h3, sanctionsSearch]
    rw [collectStep, collectStep, collectStep]
    simp
  refine ⟨hc, rfl, ?_⟩
  show (if (collectSanctionsMatches p [e1, e2, e3]).isEmpty
        then "PASSED" else "REVIEW_NEEDED") = _
  rw [hc]

/-- C2 witness: the amended theorem applied to the concrete scenario of
three entities with the provider failing for the second one. -/
theorem c2_partial_failure_witness :
    (run_compliance_evaluation (Except.ok "ok") partialProvider ["E1", "E2", "E3"]).sanctions_matches
      = [mACME].filter validMatch ++ [mOffshore].filter validMatch ∧
    (run_compliance_evaluation (Except.ok "ok") partialProvider ["E1", "E2", "E3"]).error = none ∧
    (run_compliance_evaluation (Except.ok "ok") partialProvider ["E1", "E2", "E3"]).compliance_status
      = (if ([mACME].filter validMatch ++ [mOffshore].filter validMatch).isEmpty
         then "PASSED" else "REVIEW_NEEDED") :=
  c2_partial_failure_tolerant "ok" "E1" "E2" "E3" "sanctions backend timeout"
    [mACME] [mOffshore] partialProvider rfl rfl rfl

/-- C3 counterexample: when an unexpected exception escapes a stage, the
run is marked FAILED with the captured error, but it is NOT appended to
the analysis history — the append happens only on the success path,
before the except clause re-raises.  This refutes the claim that the
failed run is still appended. -/
theorem c3_failed_run_not_appended :
    (analyze_transactions_run [] failCall).run.status = "FAILED" ∧
    (analyze_transactions_run [] failCall).run.error = some "boom" ∧
    (analyze_transactions_run [] failCall).run ∉ (analyze_transactions_run [] failCall).history := by
  decide

/-- C3 amended: when an unexpected exception escapes a stage during
analyze_transactions, the run status is set to FAILED with the captured
error and the exception is re-raised, while the analysis history is left
unchanged; only successfully completed runs are appended to history. -/
theorem c3_failure_path (hist : List AnalysisRun) (c : RunCall) (e : String)
    (h : c.unexpected = some e) :
    (analyze_transactions_run hist c).run.status = "FAILED" ∧
    (analyze_transactions_run hist c).run.error = some e ∧
    (analyze_transactions_run hist c).raised = true ∧
    (analyze_transactions_run hist c).history = hist := by
  simp [analyze_transactions_run, h]

/-- C3 witness: the amended failure-path theorem at the concrete failing call. -/
theorem c3_failure_path_witness :
    (analyze_transactions_run [] failCall).run.status = "FAILED" ∧
    (analyze_transactions_run [] failCall).run.error = some "boom" ∧
    (analyze_transactions_run [] failCall).raised = true ∧
    (analyze_transactions_run [] failCall).history = [] :=
  c3_failure_path [] failCall "boom" rfl

/-- C4: the code contradicts the claim (and the repository test
test_analyze_transaction_pattern_threshold): at amount 9500 the forensic
per-transaction analysis scores 4 — at least 4, as claimed — but
requires_review is 4 at least 5, which is false, not true. -/
theorem c4_score_at_9500 :
    9000 ≤ txn9500.amount ∧ txn9500.amount < 10000 ∧
    (analyze_transaction_pattern txn9500).risk_score = 4 ∧
    (analyze_transaction_pattern txn9500).requires_review = false := by
  decide

/-- C5: structuring detection emits a pattern for an account exactly when
the account group has at least 3 transactions, total above 10000, and all
member amounts below 10000; every emitted pattern carries the group count
and total and severity HIGH; the batch [9000, 8500, 9500] on account A
yields exactly one pattern (27000, 3, HIGH) and [9000, 12000] yields none. -/
theorem c5_structuring_characterization :
    (∀ (txns : List Transaction) (a : String),
       (detect_patterns txns).any (fun p => p.account == a) =
         (decide (3 ≤ (accountGroup txns a).length) &&
          decide (10000 < totalAmount (accountGroup txns a)) &&
          (accountGroup txns a).all (fun t => decide (t.amount < 10000))))
    ∧ (∀ txns : List Transaction,
        (detect_patterns txns).all (fun p =>
          p.type == "POTENTIAL_STRUCTURING" && p.severity == "HIGH" &&
          p.transaction_count == (accountGroup txns p.account).length &&
          p.total_amount == totalAmount (accountGroup txns p.account)) = true)
    ∧ detect_patterns c5batchA = [⟨"POTENTIAL_STRUCTURING", "A", 3, 27000, "HIGH"⟩]
    ∧ detect_patterns c5batchB = [] := by
  refine ⟨?_, ?_, by decide, by decide⟩
  · intro txns a
    apply bool_eq_of_iff
    rw [List.any_eq_true]
    simp only [Bool.and_eq_true, decide_eq_true_eq, List.all_eq_true, beq_iff_eq]
    constructor
    · intro h
      have hcond := pattern_for_account_iff.mp h
      exact ⟨⟨hcond.1, hcond.2.1⟩, hcond.2.2⟩
    · intro h
      exact pattern_for_account_iff.mpr ⟨h.1.1, h.1.2, h.2⟩
  · intro txns
    rw [List.all_eq_true]
    intro p hp
    rw [detect_patterns, List.mem_filterMap] at hp
    obtain ⟨b, _, hsome⟩ := hp
    rw [structuringEntry_eq_some] at hsome
    obtain ⟨_, _, _, hpe⟩ := hsome
    rw [hpe]
    simp

/-- C6: the overall bias status follows the strict precedence
REVIEW_REQUIRED on any high-severity indicator, else CAUTION on at least
two medium-severity indicators, else CONTENT_SAFETY_ISSUE on an unsafe
safety classification, else PASSED. -/
theorem c6_bias_status_precedence (safe : Option Bool) (ind : List BiasIndicator) :
    ((get_overall_bias_assessment safe ind).status = "REVIEW_REQUIRED"
        ↔ 0 < ind.countP (fun i => i.severity == "high"))
    ∧ ((get_overall_bias_assessment safe ind).status = "CAUTION"
        ↔ (ind.countP (fun i => i.severity == "high") = 0
           ∧ 2 ≤ ind.countP (fun i => i.severity == "medium")))
    ∧ ((get_overall_bias_assessment safe ind).status = "CONTENT_SAFETY_ISSUE"
        ↔ (ind.countP (fun i => i.severity == "high") = 0
           ∧ ind.countP (fun i => i.severity == "medium") < 2
           ∧ safe.getD true = false))
    ∧ ((get_overall_bias_assessment safe ind).status = "PASSED"
        ↔ (ind.countP (fun i => i.severity == "high") = 0
           ∧ ind.countP (fun i => i.severity == "medium") < 2
           ∧ safe.getD true = true)) := by
  have hs : (get_overall_bias_assessment safe ind).status =
      (if 0 < ind.countP (fun i => i.severity == "high") then "REVIEW_REQUIRED"
       else if 1 < ind.countP (fun i => i.severity == "medium") then "CAUTION"
       else if safe.getD true = false then "CONTENT_SAFETY_ISSUE"
       else "PASSED") := by
    simp only [get_overall_bias_assessment]
    by_cases h1 : 0 < ind.countP (fun i => i.severity == "high") <;>
      by_cases h2 : 1 < ind.countP (fun i => i.severity == "medium") <;>
        by_cases h3 : safe.getD true = false <;>
          simp [h1, h2, h3]
  have d1 : ("REVIEW_REQUIRED" : String) ≠ "CAUTION" := by decide
  have d2 : ("REVIEW_REQUIRED" : String) ≠ "CONTENT_SAFETY_ISSUE" := by decide
  have d3 : ("REVIEW_REQUIRED" : String) ≠ "PASSED" := by decide
  have d4 : ("CAUTION" : String) ≠ "REVIEW_REQUIRED" := by decide
  have d5 : ("CAUTION" : String) ≠ "CONTENT_SAFETY_ISSUE" := by decide
  have d6 : ("CAUTION" : String) ≠ "PASSED" := by decide
  have d7 : ("CONTENT_SAFETY_ISSUE" : String) ≠ "REVIEW_REQUIRED" := by decide
  have d8 : ("CONTENT_SAFETY_ISSUE" : String) ≠ "CAUTION" := by decide
  have d9 : ("CONTENT_SAFETY_ISSUE" : String) ≠ "PASSED" := by decide
  have d10 : ("PASSED" : String) ≠ "REVIEW_REQUIRED" := by decide
  have d11 : ("PASSED" : String) ≠ "CAUTION" := by decide
  have d12 : ("PASSED" : String) ≠ "CONTENT_SAFETY_ISSUE" := by decide
  rw [hs]
  generalize ind.countP (fun i => i.severity == "high") = hc
  generalize ind.countP (fun i => i.severity == "medium") = mc
  by_cases h1 : 0 < hc <;>
    by_cases h2 : 1 < mc <;>
      by_cases h3 : safe.getD true = false <;>
        simp [h1, h2, h3, d1, d2, d3, d4, d5, d6, d7, d8, d9, d10, d11, d12] <;> omega

/-- Scanning the concatenation of two conditional singleton blocks. -/
theorem any_ite_append {α : Type} (A B : Prop) [Decidable A] [Decidable B]
    (l1 l2 : List α) (p : α → Bool) :
    ((if A then l1 else []) ++ (if B then l2 else [])).any p
      = (decide A && l1.any p || decide B && l2.any p) := by
  by_cases hA : A <;> by_cases hB : B <;> simp [hA, hB]

/-- C7: determineReporting emits a CTR requirement exactly when the
amount is at least 10000 and the lower-cased type contains cash, emits a
SAR requirement exactly when the suspicious flag is set or the amount is
at least 5000, and emits nothing else. -/
theorem c7_reporting_requirements (t : Transaction) :
    ((determine_reporting_requirements t).any (fun r => r.report_type == "CTR")
       = (decide (10000 ≤ t.amount) && strContains (strLower t.type) "cash"))
    ∧ ((determine_reporting_requirements t).any (fun r => r.report_type == "SAR")
       = (t.suspicious || decide (5000 ≤ t.amount)))
    ∧ ((determine_reporting_requirements t).all
         (fun r => r.report_type == "CTR" || r.report_type == "SAR") = true) := by
  have dSC : ("SAR" : String) ≠ "CTR" := by decide
  have dCS : ("CTR" : String) ≠ "SAR" := by decide
  have hand : ∀ (p q : Prop) [Decidable p] [Decidable q],
      decide (p ∧ q) = (decide p && decide q) := by
    intro p q _ _
    by_cases hp : p <;> by_cases hq : q <;> simp [hp, hq]
  have hor : ∀ (p q : Prop) [Decidable p] [Decidable q],
      decide (p ∨ q) = (decide p || decide q) := by
    intro p q _ _
    by_cases hp : p <;> by_cases hq : q <;> simp [hp, hq]
  refine ⟨?_, ?_, ?_⟩
  · simp only [determine_reporting_requirements, any_ite_append]
    simp [ctrRequirement, sarRequirement, dSC, hand, Bool.decide_coe]
  · simp only [determine_reporting_requirements, any_ite_append]
    simp [ctrRequirement, sarRequirement, dCS, hor, Bool.decide_coe]
  · by_cases hA : 10000 ≤ t.amount ∧ strContains (strLower t.type) "cash" = true <;>
      by_cases hB : t.suspicious = true ∨ 5000 ≤ t.amount <;>
        simp [determine_reporting_requirements, hA, hB, ctrRequirement, sarRequirement]

/-- C8: the report content hash is deterministic — the hashValue field
depends only on the serialized content, never on the time the hash is
computed — and the algorithm is SHA-256 over the UTF-8 content bytes. -/
theorem c8_hash_deterministic (content t1 t2 : String) :
    (generate_report_hash content t1).hash_value
      = (generate_report_hash content t2).hash_value ∧
    (generate_report_hash content t1).hash_algorithm = "SHA-256" ∧
    (generate_report_hash content t1).hash_value = sha256Hexdigest content :=
  ⟨rfl, rfl, rfl⟩

set_option maxRecDepth 10000 in
/-- Sanity check that the embedded SHA-256 is the standard one: the
FIPS 180-2 test vector for the string abc. -/
theorem sha256Hexdigest_abc :
    sha256Hexdigest "abc"
      = "ba7816bf8f01cfea414140de5dae2223b00361a396177a9cb410ff61f20015ad" := by
  decide

/-- One analyze_transactions call extends the history by exactly its new
entries: one completed run on success, nothing on failure. -/
theorem history_step (hist : List AnalysisRun) (c : RunCall) :
    (analyze_transactions_run hist c).history = hist ++ newEntries c := by
  cases hu : c.unexpected <;>
    simp [analyze_transactions_run, newEntries, completedRun, hu]

/-- The history of a sequence of calls is the concatenation of the new
entries of each call, in call order. -/
theorem run_history_flat : ∀ (calls : List RunCall) (h : List AnalysisRun),
    calls.foldl (fun acc c => (analyze_transactions_run acc c).history) h
      = h ++ (calls.map newEntries).flatten := by
  intro calls
  induction calls with
  | nil => intro h; simp
  | cons c cs ih =>
    intro h
    simp only [List.foldl_cons, List.map_cons, List.flatten_cons]
    rw [history_step, ih, List.append_assoc]

/-- C9: every entry ever present in the analysis history has status
COMPLETED and a completion timestamp; entries are appended in submission
order, one per successful run and none for a failed run, and
get_analysis_history returns the history unchanged. -/
theorem c9_history_append_only :
    (∀ calls : List RunCall,
       (run_history calls).all
         (fun r => r.status == "COMPLETED" && r.completed_at.isSome) = true)
    ∧ (∀ (calls : List RunCall) (c : RunCall),
        run_history (calls ++ [c]) = run_history calls ++ newEntries c)
    ∧ (∀ h : List AnalysisRun, get_analysis_history h = h) := by
  refine ⟨?_, ?_, fun h => rfl⟩
  · intro calls
    rw [run_history, run_history_flat, List.nil_append, List.all_eq_true]
    intro r hr
    rw [List.mem_flatten] at hr
    obtain ⟨l, hl, hrl⟩ := hr
    rw [List.mem_map] at hl
    obtain ⟨c, _, hceq⟩ := hl
    rw [← hceq] at hrl
    cases hu : c.unexpected with
    | none =>
      simp only [newEntries, hu, List.mem_singleton] at hrl
      rw [hrl]
      simp [completedRun]
    | some e => simp [newEntries, hu] at hrl
  · intro calls c
    rw [run_history, run_history, List.foldl_append]
    simp only [List.foldl_cons, List.foldl_nil]
    exact history_step _ c

/-- C10: a transaction with amount at least 10000, a non-round amount,
and no high-risk-jurisdiction hit scores exactly 3 in the high-risk
extraction — there is no additional bonus above 50000 — so it is
excluded from high_risk_transactions wherever it appears in the batch and
contributes no decision to the bias audit. -/
theorem c10_no_high_value_bonus (t : Transaction) (pre post : List Transaction)
    (ms : List SMatch)
    (hA : 10000 ≤ t.amount) (hR : t.amount % 1000 ≠ 0) (hJ : jurisdictionHit t = false) :
    riskScoreOf t = 3 ∧ highRiskEntry t = none ∧
    extract_high_risk (pre ++ t :: post) = extract_high_risk (pre ++ post) ∧
    prepare_decisions_for_bias_check (extract_high_risk (pre ++ t :: post)) ms
      = prepare_decisions_for_bias_check (extract_high_risk (pre ++ post)) ms := by
  have hscore : riskScoreOf t = 3 := by
    rw [riskScoreOf, if_pos hA, if_neg (fun hc => hR hc.2), if_neg (by simp [hJ])]
  have hentry : highRiskEntry t = none := by
    rw [highRiskEntry, hscore]
    norm_num
  have hext : extract_high_risk (pre ++ t :: post) = extract_high_risk (pre ++ post) := by
    simp [extract_high_risk, List.filterMap_append, List.filterMap_cons, hentry]
  exact ⟨hscore, hentry, hext, by rw [hext]⟩

/-- C10 witness: the exclusion theorem at a concrete large, non-round,
clean-jurisdiction transaction as a one-element batch. -/
theorem c10_no_high_value_bonus_witness :
    10000 ≤ txnLargeClean.amount ∧ txnLargeClean.amount % 1000 ≠ 0 ∧
    jurisdictionHit txnLargeClean = false ∧
    (riskScoreOf txnLargeClean = 3 ∧ highRiskEntry txnLargeClean = none ∧
     extract_high_risk ([] ++ txnLargeClean :: []) = extract_high_risk ([] ++ []) ∧
     prepare_decisions_for_bias_check (extract_high_risk ([] ++ txnLargeClean :: [])) []
       = prepare_decisions_for_bias_check (extract_high_risk ([] ++ [])) []) :=
  ⟨by decide, by decide, by decide,
   c10_no_high_value_bonus txnLargeClean [] [] [] (by decide) (by decide) (by decide)⟩
